import Mathlib

/-!
Verification of the admission validator of `flink-on-k8s-operator`
(`api/v1alpha1/flinkcluster_validate.go`), as a shallow embedding in Lean.

Go pointers of scalar type (`*int32`, `*bool`, `*string`) are modelled as
`Option`; `reflect.DeepEqual` on such values coincides with structural
equality of the `Option`-modelled values, so deep equality is Lean `=`.
The validator's `error` results are modelled by an explicit error type; the
nil-pointer dereference that the memory-configuration check performs when
`MemoryOffHeapMin` is nil is modelled by a distinct `panics` outcome, since
the Go function does not return there at all.
-/

namespace FlinkValidate

/-- Modelled from the spec: identity of the resource.  The Go struct
`FlinkCluster` embeds `metav1.ObjectMeta` (an external Kubernetes library
type); only `Name` and `Namespace` are read by the validator
(`validateMeta`). -/
structure ObjectMeta where
  Name : String
  Namespace : String
deriving DecidableEq, Repr

/-- Modelled from the spec: the image section of the specification
(`ImageSpec` in the repository's types file, which is not under `src/`);
`validateImage` reads `Name` and `PullPolicy`.  `PullPolicy` is a string in
Go (`corev1.PullPolicy`); its allowed constants are `"Always"`,
`"IfNotPresent"`, `"Never"`. -/
structure ImageSpec where
  Name : String
  PullPolicy : String
deriving DecidableEq, Repr

/-- Modelled from the spec: the JobManager port set {rpc, blob, query, ui};
each port is a `*int32` in Go. -/
structure JobManagerPorts where
  RPC : Option Int
  Blob : Option Int
  Query : Option Int
  UI : Option Int
deriving DecidableEq, Repr

/-- Modelled from the spec: the TaskManager port set {rpc, data, query}. -/
structure TaskManagerPorts where
  RPC : Option Int
  Data : Option Int
  Query : Option Int
deriving DecidableEq, Repr

/-- Modelled from the spec: the resource requirements of a component.  Only
the memory limit is read by the validator
(`jmSpec.Resources.Limits.Memory().Value()`, the limit in bytes, `0` when
absent). -/
structure ResourceRequirements where
  LimitsMemoryBytes : Nat
deriving DecidableEq, Repr

/-- Modelled from the spec: the manager section (`JobManagerSpec`).  Fields
are the ones `validateJobManager` reads: replicas (`*int32`), access scope
(string enumeration Cluster | VPC | External), the four ports, the off-heap
ratio and minimum (`*int32`), and the resource limits. -/
structure JobManagerSpec where
  Replicas : Option Int
  AccessScope : String
  Ports : JobManagerPorts
  MemoryOffHeapRatio : Option Int
  MemoryOffHeapMin : Option Int
  Resources : ResourceRequirements
deriving DecidableEq, Repr

/-- Modelled from the spec: the worker section (`TaskManagerSpec`):
replicas (plain `int32`) and the three ports. -/
structure TaskManagerSpec where
  Replicas : Int
  Ports : TaskManagerPorts
deriving DecidableEq, Repr

/-- Modelled from the spec: the cleanup policy, two independent
`CleanupAction` string enumerations. -/
structure CleanupPolicy where
  AfterJobSucceeds : String
  AfterJobFails : String
deriving DecidableEq, Repr

/-- Modelled from the spec: the job section (`JobSpec`), fields read by
`validateJob` and `checkCancelRequested`: jar file path, parallelism
(`*int32`), restart policy (`*corev1.RestartPolicy`, a string), cleanup
policy (`*CleanupPolicy`), and the `CancelRequested` flag (`*bool`). -/
structure JobSpec where
  JarFile : String
  Parallelism : Option Int
  RestartPolicy : Option String
  CleanupPolicy : Option CleanupPolicy
  CancelRequested : Option Bool
deriving DecidableEq, Repr

/-- Modelled from the spec: the whole specification tree
(`FlinkClusterSpec`): image, manager, worker, optional job.  Identity is
*not* part of this struct — `validateMeta` receives `cluster.ObjectMeta`, a
sibling field of `cluster.Spec` on `FlinkCluster`. -/
structure FlinkClusterSpec where
  Image : ImageSpec
  JobManager : JobManagerSpec
  TaskManager : TaskManagerSpec
  Job : Option JobSpec
deriving DecidableEq, Repr

/-- The custom resource: `metav1.ObjectMeta` plus the specification. -/
structure FlinkCluster where
  ObjectMeta : ObjectMeta
  Spec : FlinkClusterSpec
deriving DecidableEq, Repr

/-- The distinct error values produced by the validator, one constructor
per `fmt.Errorf` site of `flinkcluster_validate.go`, with the dynamic
message parts as arguments. -/
inductive VError where
  | nameUnspecified
  | namespaceUnspecified
  | imageNameUnspecified
  | invalidPullPolicy (policy : String)
  | invalidJMReplicas
  | invalidAccessScope (scope : String)
  | portUnspecified (component name : String)
  | portOutOfRange (component name : String) (value : Int)
  | invalidMemoryOffHeapRatio
  | memoryOffHeapMinNotSpecified
  | memoryLimitTooSmall
  | invalidTMReplicas
  | jarFileUnspecified
  | parallelismUnspecified
  | parallelismTooSmall
  | restartPolicyUnspecified
  | invalidRestartPolicy (policy : String)
  | cleanupPolicyUnspecified
  | invalidCleanupAction (property value : String)
  | cancelRequestedAtCreate
  | specImmutable
  | irreversibleCancel
deriving DecidableEq, Repr

/-- Outcome of a validation function: normal return of `nil`, normal
return of a non-nil `error`, or a run-time nil-pointer dereference (the Go
function does not return in that case). -/
inductive VResult where
  | ok
  | err (e : VError)
  | panics
deriving DecidableEq, Repr

/-- Sequencing of fail-fast checks: `err` and `panics` short-circuit, as
the `if err != nil { return err }` chains do in Go. -/
def VResult.andThen (r : VResult) (f : Unit → VResult) : VResult :=
  match r with
  | .ok => f ()
  | r => r

/-- Embeds `validateMeta`: name and namespace must be non-empty. -/
def validateMeta (meta : ObjectMeta) : VResult :=
  if meta.Name.length = 0 then .err .nameUnspecified
  else if meta.Namespace.length = 0 then .err .namespaceUnspecified
  else .ok

/-- Embeds `validateImage`: non-empty name, pull policy one of the three
`corev1` constants. -/
def validateImage (imageSpec : ImageSpec) : VResult :=
  if imageSpec.Name.length = 0 then .err .imageNameUnspecified
  else if imageSpec.PullPolicy = "Always" ∨ imageSpec.PullPolicy = "IfNotPresent"
      ∨ imageSpec.PullPolicy = "Never" then .ok
  else .err (.invalidPullPolicy imageSpec.PullPolicy)

/-- Embeds `validatePort`: a port must be non-nil and strictly greater than
1024. -/
def validatePort (port : Option Int) (name component : String) : VResult :=
  match port with
  | none => .err (.portUnspecified component name)
  | some p =>
    if p ≤ 1024 then .err (.portOutOfRange component name p)
    else .ok

/-- Modelled from the spec: the access-scope enumeration constants
(`AccessScope.Cluster` / `.VPC` / `.External` in the repository's types
file, which is not under `src/`). -/
def accessScopeValues : List String := ["Cluster", "VPC", "External"]

/-- The memory limit converted to MB: `resource.MustParse("1Mi")` has
value `2^20 = 1048576`, and
`math.Floor(float64(bytes) / float64(1048576))` is floored division. -/
def memLimitMB (bytes : Nat) : Nat := bytes / 1048576

/-- Embeds `validateJobManager`: replicas exactly 1, access scope enumerated,
four ports, off-heap ratio in [0,100], then the memory-configuration
check.  The source's memory check is

```
if jmSpec.MemoryOffHeapMin != nil {
    return fmt.Errorf("... MemoryOffHeapMin is not specified")
} else if *jmSpec.MemoryOffHeapMin > int32(jmMemLimit) {
    ...
}
```

so a *present* `MemoryOffHeapMin` returns the "not specified" error, and
an absent one reaches `*jmSpec.MemoryOffHeapMin`, a nil dereference: the
`else if` comparison against `int32(jmMemLimit)` is never completed on any
input. -/
def validateJobManager (jmSpec : JobManagerSpec) : VResult :=
  if jmSpec.Replicas = none ∨ jmSpec.Replicas ≠ some 1 then
    .err .invalidJMReplicas
  else if ¬ jmSpec.AccessScope ∈ accessScopeValues then
    .err (.invalidAccessScope jmSpec.AccessScope)
  else
    (validatePort jmSpec.Ports.RPC "rpc" "jobmanager").andThen fun _ =>
    (validatePort jmSpec.Ports.Blob "blob" "jobmanager").andThen fun _ =>
    (validatePort jmSpec.Ports.Query "query" "jobmanager").andThen fun _ =>
    (validatePort jmSpec.Ports.UI "ui" "jobmanager").andThen fun _ =>
    (match jmSpec.MemoryOffHeapRatio with
     | none => .err .invalidMemoryOffHeapRatio
     | some r =>
       if r > 100 ∨ r < 0 then .err .invalidMemoryOffHeapRatio
       else
         match jmSpec.MemoryOffHeapMin with
         | some _ => .err .memoryOffHeapMinNotSpecified
         | none => .panics)

/-- Embeds `validateTaskManager`: replicas at least 1, three ports. -/
def validateTaskManager (tmSpec : TaskManagerSpec) : VResult :=
  if tmSpec.Replicas < 1 then .err .invalidTMReplicas
  else
    (validatePort tmSpec.Ports.RPC "rpc" "taskmanager").andThen fun _ =>
    (validatePort tmSpec.Ports.Data "data" "taskmanager").andThen fun _ =>
    (validatePort tmSpec.Ports.Query "query" "taskmanager")

/-- Modelled from the spec: the `CleanupAction` constants
(`CleanupActionDeleteCluster`, `CleanupActionDeleteTaskManager`,
`CleanupActionKeepCluster` in the repository's types file, which is not
under `src/`). -/
def cleanupActionValues : List String :=
  ["DeleteCluster", "DeleteTaskManager", "KeepCluster"]

/-- Embeds `validateCleanupAction`: the value must be one of the three
enumerated actions. -/
def validateCleanupAction (property value : String) : VResult :=
  if value ∈ cleanupActionValues then .ok
  else .err (.invalidCleanupAction property value)

/-- Embeds `validateJob`: trivially succeeds when no job is attached; otherwise
jar file non-empty, parallelism present and ≥ 1, restart policy present
and enumerated, cleanup policy present with both actions enumerated, and
`CancelRequested` absent or false. -/
def validateJob (jobSpec : Option JobSpec) : VResult :=
  match jobSpec with
  | none => .ok
  | some job =>
    if job.JarFile.length = 0 then .err .jarFileUnspecified
    else
      match job.Parallelism with
      | none => .err .parallelismUnspecified
      | some p =>
        if p < 1 then .err .parallelismTooSmall
        else
          match job.RestartPolicy with
          | none => .err .restartPolicyUnspecified
          | some rp =>
            if ¬ (rp = "Never" ∨ rp = "OnFailure") then
              .err (.invalidRestartPolicy rp)
            else
              match job.CleanupPolicy with
              | none => .err .cleanupPolicyUnspecified
              | some cp =>
                (validateCleanupAction "cleanupPolicy.afterJobSucceeds"
                    cp.AfterJobSucceeds).andThen fun _ =>
                (validateCleanupAction "cleanupPolicy.afterJobFails"
                    cp.AfterJobFails).andThen fun _ =>
                if job.CancelRequested = some true then
                  .err .cancelRequestedAtCreate
                else .ok

/-- Embeds `ValidateCreate`: meta → image → manager → worker → job, fail-fast. -/
def ValidateCreate (cluster : FlinkCluster) : VResult :=
  (validateMeta cluster.ObjectMeta).andThen fun _ =>
  (validateImage cluster.Spec.Image).andThen fun _ =>
  (validateJobManager cluster.Spec.JobManager).andThen fun _ =>
  (validateTaskManager cluster.Spec.TaskManager).andThen fun _ =>
  (validateJob cluster.Spec.Job)

/-- Evaluates `(c != nil && *c)` for a `*bool`: present and true. -/
def isCancelTrue (c : Option Bool) : Bool :=
  match c with
  | some b => b
  | none => false

/-- Embeds `checkCancelRequested`: returns `(false, nil)` when either side has no
job; rejects the true→false/absent transition; for the false/absent→true
transition, clones `old`, overwrites only the clone's `CancelRequested`
with the new value, and reports whether the clone's spec deep-equals
`new.Spec`. -/
def checkCancelRequested (old new : FlinkCluster) : Except VError Bool :=
  match old.Spec.Job, new.Spec.Job with
  | some oldJob, some newJob =>
    let restartJob := isCancelTrue oldJob.CancelRequested
        ∧ ¬ isCancelTrue newJob.CancelRequested
    if restartJob then .error .irreversibleCancel
    else
      let stopJob := ¬ isCancelTrue oldJob.CancelRequested
          ∧ isCancelTrue newJob.CancelRequested
      if stopJob then
        let oldCopySpec : FlinkClusterSpec :=
          { old.Spec with
            Job := some { oldJob with CancelRequested := newJob.CancelRequested } }
        .ok (decide (new.Spec = oldCopySpec))
      else .ok false
  | _, _ => .ok false

/-- Embeds `ValidateUpdate`: the cancel-transition check first (propagating its
error), acceptance when the transition holds, otherwise deep equality of
the two specs. -/
def ValidateUpdate (old new : FlinkCluster) : VResult :=
  match checkCancelRequested old new with
  | .error e => .err e
  | .ok true => .ok
  | .ok false =>
    if new.Spec = old.Spec then .ok
    else .err .specImmutable

/-! ### Concrete fixtures used by witnesses and counterexamples -/

def goodJMPorts : JobManagerPorts :=
  { RPC := some 6123, Blob := some 6124, Query := some 6125, UI := some 8081 }

def goodTMPorts : TaskManagerPorts :=
  { RPC := some 6121, Data := some 6122, Query := some 6125 }

/-- A manager spec passing every check before the memory-configuration
one, with `MemoryOffHeapMin` absent (the common, intended configuration
shape per the spec). -/
def jmNoMin : JobManagerSpec :=
  { Replicas := some 1, AccessScope := "Cluster", Ports := goodJMPorts,
    MemoryOffHeapRatio := some 25, MemoryOffHeapMin := none,
    Resources := { LimitsMemoryBytes := 1073741824 } }

/-- Same manager spec with `MemoryOffHeapMin` present (600 MB) and a 1 GiB
(= 1024 MB) memory limit, i.e. satisfying the spec's off-heap-minimum
contract. -/
def jmMinPresent : JobManagerSpec := { jmNoMin with MemoryOffHeapMin := some 600 }

def tmGood : TaskManagerSpec := { Replicas := 3, Ports := goodTMPorts }

def imageGood : ImageSpec := { Name := "flink:1.8.1", PullPolicy := "Always" }

def metaGood : ObjectMeta := { Name := "mycluster", Namespace := "default" }

def jobGood : JobSpec :=
  { JarFile := "gs://bucket/job.jar", Parallelism := some 2,
    RestartPolicy := some "OnFailure",
    CleanupPolicy := some { AfterJobSucceeds := "DeleteCluster",
                            AfterJobFails := "KeepCluster" },
    CancelRequested := none }

def specNoMin : FlinkClusterSpec :=
  { Image := imageGood, JobManager := jmNoMin, TaskManager := tmGood,
    Job := some jobGood }

def clusterNoMin : FlinkCluster := { ObjectMeta := metaGood, Spec := specNoMin }

/-- A cluster that `ValidateCreate` rejects at the very first field check:
empty image name (and a reserved port as well). -/
def badCluster : FlinkCluster :=
  { ObjectMeta := metaGood,
    Spec := { specNoMin with
              Image := { Name := "", PullPolicy := "Always" },
              JobManager := { jmNoMin with
                              Ports := { goodJMPorts with RPC := some 80 } } } }

/-! ### Shared helper lemmas -/

theorem VResult.andThen_eq_ok {r : VResult} {f : Unit → VResult} :
    r.andThen f = .ok ↔ r = .ok ∧ f () = .ok := by
  cases r <;> simp [VResult.andThen]

/-- The memory-configuration check returns an error when
`MemoryOffHeapMin` is present and dereferences nil when it is absent, so
`validateJobManager` never returns success. -/
theorem validateJobManager_not_ok (jmSpec : JobManagerSpec) :
    validateJobManager jmSpec ≠ .ok := by
  intro h
  unfold validateJobManager at h
  split at h
  · simp at h
  · split at h
    · simp at h
    · simp only [VResult.andThen_eq_ok] at h
      obtain ⟨-, -, -, -, h⟩ := h
      split at h
      · simp at h
      · split at h
        · simp at h
        · split at h <;> simp at h

/-- The entry point `ValidateCreate` can never return success, because `validateJobManager`
cannot. -/
theorem validateCreate_not_ok (cluster : FlinkCluster) :
    ValidateCreate cluster ≠ .ok := by
  intro h
  unfold ValidateCreate at h
  simp only [VResult.andThen_eq_ok] at h
  exact validateJobManager_not_ok _ h.2.2.1

/-- When the two specs are deep-equal, the update path accepts: the
cancel-transition check cannot fire on equal specs, and the immutability
comparison succeeds. -/
theorem update_ok_of_spec_eq (old new : FlinkCluster) (h : new.Spec = old.Spec) :
    ValidateUpdate old new = .ok := by
  unfold ValidateUpdate checkCancelRequested
  rcases hj : old.Spec.Job with - | oj
  · rw [h, hj]; simp [h]
  · rw [h, hj]
    rcases hb : isCancelTrue oj.CancelRequested <;> simp [hb, h]

/-- The reduction rule of `andThen` on success, stated as an equation for
rewriting. -/
theorem VResult.ok_andThen (f : Unit → VResult) : VResult.ok.andThen f = f () := rfl

/-! ### Further fixtures for the update-path claims -/

def clusterAlpha : FlinkCluster :=
  { ObjectMeta := { Name := "alpha", Namespace := "default" }, Spec := specNoMin }

def clusterBeta : FlinkCluster :=
  { ObjectMeta := { Name := "beta", Namespace := "default" }, Spec := specNoMin }

/-- No job attached; used for a pure image change. -/
def cImgA : FlinkCluster :=
  { ObjectMeta := metaGood, Spec := { specNoMin with Job := none } }

def cImgB : FlinkCluster :=
  { ObjectMeta := metaGood,
    Spec := { specNoMin with
              Job := none,
              Image := { Name := "other:1", PullPolicy := "Always" } } }

/-- The cluster `clusterNoMin` with the job's `CancelRequested` set to true. -/
def oldCancelled : FlinkCluster :=
  { ObjectMeta := metaGood,
    Spec := { specNoMin with
              Job := some { jobGood with CancelRequested := some true } } }

/-- Cancel requested absent again, and the image changed as well. -/
def newUncancelled : FlinkCluster :=
  { ObjectMeta := metaGood,
    Spec := { specNoMin with
              Image := { Name := "changed:2", PullPolicy := "Never" },
              Job := some jobGood } }

/-- Cancel requested turned on, but worker replicas changed too. -/
def clusterCancelAndScale : FlinkCluster :=
  { ObjectMeta := metaGood,
    Spec := { specNoMin with
              TaskManager := { tmGood with Replicas := 4 },
              Job := some { jobGood with CancelRequested := some true } } }

/-! ### Claims -/

/-- C1: the claim states that the off-heap check requires
`MemoryOffHeapMin` to be present and the memory limit in MB to be at least
that minimum.  The code does the opposite: on a manager spec whose minimum
*is* present (600) and whose converted limit (1024 MB) exceeds it —
exactly the configuration the claim says is accepted — `validateJobManager`
returns the invalid-memory-configuration error, and when the minimum is
absent it dereferences nil.  This theorem records the code's behaviour at
that failing input. -/
theorem C1_offheap_check_inverted :
    jmMinPresent.MemoryOffHeapMin = some 600 ∧
    600 ≤ memLimitMB jmMinPresent.Resources.LimitsMemoryBytes ∧
    validateJobManager jmMinPresent = .err .memoryOffHeapMinNotSpecified :=
  ⟨rfl, by decide, by decide⟩

/-- C2: a manager spec that passes the replicas, access-scope, port and
off-heap-ratio checks and whose `MemoryOffHeapMin` is nil reaches the
dereference of `*jmSpec.MemoryOffHeapMin` with a nil pointer, and
consequently `ValidateCreate` returns success on no input at all: every
evaluation either returns an error or is not total. -/
theorem C2_create_never_succeeds :
    (∀ jmSpec : JobManagerSpec,
        jmSpec.Replicas = some 1 →
        jmSpec.AccessScope ∈ accessScopeValues →
        validatePort jmSpec.Ports.RPC "rpc" "jobmanager" = .ok →
        validatePort jmSpec.Ports.Blob "blob" "jobmanager" = .ok →
        validatePort jmSpec.Ports.Query "query" "jobmanager" = .ok →
        validatePort jmSpec.Ports.UI "ui" "jobmanager" = .ok →
        (∃ r, jmSpec.MemoryOffHeapRatio = some r ∧ 0 ≤ r ∧ r ≤ 100) →
        jmSpec.MemoryOffHeapMin = none →
        validateJobManager jmSpec = .panics) ∧
    (∀ cluster : FlinkCluster, ValidateCreate cluster ≠ .ok) := by
  constructor
  · rintro jm h1 h2 h3 h4 h5 h6 ⟨r, hr, hr0, hr100⟩ hm
    unfold validateJobManager
    rw [if_neg (by simp [h1]), if_neg (not_not_intro h2)]
    simp [h3, h4, h5, h6, VResult.ok_andThen, hr, hm]
    omega
  · exact validateCreate_not_ok

/-- C2 witness: the concrete cluster `clusterNoMin` satisfies every
hypothesis of the first part and exhibits the non-total evaluation. -/
theorem C2_witness :
    validateJobManager jmNoMin = .panics ∧ ValidateCreate clusterNoMin ≠ .ok :=
  ⟨C2_create_never_succeeds.1 jmNoMin rfl (by decide) (by decide) (by decide)
      (by decide) (by decide) ⟨25, rfl, by decide, by decide⟩ rfl,
   C2_create_never_succeeds.2 clusterNoMin⟩

/-- C3 counterexample: the claim says the compared tree includes identity
(name, namespace), so that a divergence in identity causes rejection; but
two clusters with equal specs and different names are accepted by
`ValidateUpdate`, which compares only `Spec` and never reads
`ObjectMeta`. -/
theorem C3_counterexample :
    clusterAlpha.ObjectMeta.Name ≠ clusterBeta.ObjectMeta.Name ∧
    ValidateUpdate clusterAlpha clusterBeta = .ok :=
  ⟨by decide, by decide⟩

/-- C3 (amended): for every update that is neither the permitted cancel
transition nor the rejected un-cancel transition, `ValidateUpdate` rejects
as immutable whenever the spec tree (image, manager, worker, job) differs;
identity (name, namespace) is not part of the comparison, and pairs with
equal specs are accepted whatever their identities. -/
theorem C3_update_compares_spec_only :
    (∀ old new : FlinkCluster, checkCancelRequested old new = .ok false →
        new.Spec ≠ old.Spec → ValidateUpdate old new = .err .specImmutable) ∧
    (∀ old new : FlinkCluster, new.Spec = old.Spec → ValidateUpdate old new = .ok) := by
  constructor
  · intro old new hc hne
    unfold ValidateUpdate
    rw [hc]
    simp [hne]
  · exact update_ok_of_spec_eq

/-- C3 witness: a pure image change is rejected as immutable; the
equal-spec different-name pair is accepted. -/
theorem C3_witness :
    ValidateUpdate cImgA cImgB = .err .specImmutable ∧
    ValidateUpdate clusterAlpha clusterBeta = .ok :=
  ⟨C3_update_compares_spec_only.1 cImgA cImgB rfl (by decide),
   C3_update_compares_spec_only.2 clusterAlpha clusterBeta rfl⟩

/-- C4: when both sides have a job and `CancelRequested` moves from true
to false/absent, `ValidateUpdate` rejects with the irreversible-cancel
error, regardless of any other field change: the check runs first and its
error is returned before the immutability comparison. -/
theorem C4_uncancel_always_rejected :
    ∀ (old new : FlinkCluster) (oj nj : JobSpec),
      old.Spec.Job = some oj → new.Spec.Job = some nj →
      isCancelTrue oj.CancelRequested = true →
      isCancelTrue nj.CancelRequested = false →
      ValidateUpdate old new = .err .irreversibleCancel := by
  intro old new oj nj ho hn hco hcn
  unfold ValidateUpdate checkCancelRequested
  rw [ho, hn]
  simp [hco, hcn]

/-- C4 witness: cancel true → absent, with the image changed as well, is
still rejected with the irreversible-cancel error. -/
theorem C4_witness :
    ValidateUpdate oldCancelled newUncancelled = .err .irreversibleCancel :=
  C4_uncancel_always_rejected oldCancelled newUncancelled
    { jobGood with CancelRequested := some true } jobGood rfl rfl rfl rfl

/-- C5: when both sides have a job, `CancelRequested` moves from
false/absent to true, and the old spec with only `CancelRequested`
overwritten by the new value is deep-equal to the new spec, the update is
accepted. -/
theorem C5_cancel_transition_accepted :
    ∀ (old new : FlinkCluster) (oj nj : JobSpec),
      old.Spec.Job = some oj → new.Spec.Job = some nj →
      isCancelTrue oj.CancelRequested = false →
      isCancelTrue nj.CancelRequested = true →
      { old.Spec with
        Job := some { oj with CancelRequested := nj.CancelRequested } } = new.Spec →
      ValidateUpdate old new = .ok := by
  intro old new oj nj ho hn hco hcn heq
  unfold ValidateUpdate checkCancelRequested
  rw [ho, hn]
  simp [hco, hcn, heq]

/-- C5 witness: turning `CancelRequested` from absent to true with nothing
else changed is accepted. -/
theorem C5_witness : ValidateUpdate clusterNoMin oldCancelled = .ok :=
  C5_cancel_transition_accepted clusterNoMin oldCancelled jobGood
    { jobGood with CancelRequested := some true } rfl rfl rfl rfl (by decide)

/-- C6: when `CancelRequested` moves from absent to true but the modified
clone of the old spec still differs from the new spec (some other field
changed too), the update is rejected as immutable, not with a
cancel-related error. -/
theorem C6_cancel_plus_other_change_rejected :
    ∀ (old new : FlinkCluster) (oj nj : JobSpec),
      old.Spec.Job = some oj → new.Spec.Job = some nj →
      oj.CancelRequested = none → nj.CancelRequested = some true →
      { old.Spec with
        Job := some { oj with CancelRequested := nj.CancelRequested } } ≠ new.Spec →
      ValidateUpdate old new = .err .specImmutable := by
  intro old new oj nj ho hn hco hcn hne
  have hspec_ne : new.Spec ≠ old.Spec := by
    intro h
    rw [h, ho] at hn
    injection hn with hnj
    rw [← hnj, hco] at hcn
    exact Option.noConfusion hcn
  rw [hcn] at hne
  have hd : (new.Spec =
      { old.Spec with
        Job := some { oj with CancelRequested := some true } }) = False :=
    eq_false fun h => hne h.symm
  unfold ValidateUpdate checkCancelRequested
  rw [ho, hn]
  simp [isCancelTrue, hco, hcn, hd, hspec_ne]

/-- C6 witness: cancel absent → true together with a worker-replica change
is rejected as immutable. -/
theorem C6_witness :
    ValidateUpdate clusterNoMin clusterCancelAndScale = .err .specImmutable :=
  C6_cancel_plus_other_change_rejected clusterNoMin clusterCancelAndScale jobGood
    { jobGood with CancelRequested := some true } rfl rfl rfl rfl (by decide)

/-- C7: the shared port check succeeds exactly when the port is present
and strictly above 1024, and a failing port in any of the seven fields
means `ValidateCreate` cannot succeed. -/
theorem C7_port_rule :
    (∀ (port : Option Int) (name component : String),
        validatePort port name component = .ok ↔ ∃ p, port = some p ∧ 1024 < p) ∧
    (∀ cluster : FlinkCluster,
        (validatePort cluster.Spec.JobManager.Ports.RPC "rpc" "jobmanager" ≠ .ok ∨
         validatePort cluster.Spec.JobManager.Ports.Blob "blob" "jobmanager" ≠ .ok ∨
         validatePort cluster.Spec.JobManager.Ports.Query "query" "jobmanager" ≠ .ok ∨
         validatePort cluster.Spec.JobManager.Ports.UI "ui" "jobmanager" ≠ .ok ∨
         validatePort cluster.Spec.TaskManager.Ports.RPC "rpc" "taskmanager" ≠ .ok ∨
         validatePort cluster.Spec.TaskManager.Ports.Data "data" "taskmanager" ≠ .ok ∨
         validatePort cluster.Spec.TaskManager.Ports.Query "query" "taskmanager" ≠ .ok) →
        ValidateCreate cluster ≠ .ok) := by
  constructor
  · intro port name component
    cases port with
    | none => simp [validatePort]
    | some p =>
      simp only [validatePort]
      split
      · simp only [VResult.err, reduceCtorEq, false_iff]
        intro hex
        obtain ⟨q, hq, h1024⟩ := hex
        injection hq with hq
        omega
      · simp only [true_iff]
        exact ⟨p, rfl, by omega⟩
  · intro cluster _
    exact validateCreate_not_ok cluster

/-- C7 witness: the cluster with a reserved manager rpc port (80) cannot
be created, and a port above 1024 passes the shared check. -/
theorem C7_witness :
    ValidateCreate badCluster ≠ .ok ∧
    validatePort (some 9999) "rpc" "jobmanager" = .ok :=
  ⟨C7_port_rule.2 badCluster (Or.inl (by decide)),
   (C7_port_rule.1 (some 9999) "rpc" "jobmanager").mpr ⟨9999, rfl, by decide⟩⟩

/-- C8: a cluster whose job has `CancelRequested` true can never be
created, and a job whose `CancelRequested` is absent or false passes the
cancel check — an otherwise-valid job spec is accepted by `validateJob`. -/
theorem C8_cancel_rejected_at_create :
    (∀ (cluster : FlinkCluster) (j : JobSpec),
        cluster.Spec.Job = some j → j.CancelRequested = some true →
        ValidateCreate cluster ≠ .ok) ∧
    (∀ j : JobSpec,
        j.JarFile.length ≠ 0 →
        (∃ p, j.Parallelism = some p ∧ 1 ≤ p) →
        (∃ rp, j.RestartPolicy = some rp ∧ (rp = "Never" ∨ rp = "OnFailure")) →
        (∃ cp, j.CleanupPolicy = some cp ∧
            cp.AfterJobSucceeds ∈ cleanupActionValues ∧
            cp.AfterJobFails ∈ cleanupActionValues) →
        j.CancelRequested ≠ some true →
        validateJob (some j) = .ok) := by
  constructor
  · intro cluster j _ _
    exact validateCreate_not_ok cluster
  · rintro ⟨jar, par, rpo, cpo, can⟩ hjar ⟨p, hp, hp1⟩ ⟨rp, hrp, hrpv⟩
        ⟨cp, hcp, hcs, hcf⟩ hcancel
    dsimp only at hjar hp hrp hcp hcancel
    subst hp hrp hcp
    simp [validateJob, hjar, hrpv, hcancel, validateCleanupAction, hcs, hcf,
      VResult.ok_andThen]
    omega

/-- C8 witness: the born-cancelled cluster cannot be created; the concrete
job spec with `CancelRequested` absent passes `validateJob`. -/
theorem C8_witness :
    ValidateCreate oldCancelled ≠ .ok ∧ validateJob (some jobGood) = .ok :=
  ⟨C8_cancel_rejected_at_create.1 oldCancelled
      { jobGood with CancelRequested := some true } rfl rfl,
   C8_cancel_rejected_at_create.2 jobGood (by decide) ⟨2, rfl, by decide⟩
      ⟨"OnFailure", rfl, Or.inr rfl⟩
      ⟨{ AfterJobSucceeds := "DeleteCluster", AfterJobFails := "KeepCluster" },
        rfl, by decide, by decide⟩ (by decide)⟩

/-! ### Pointer-level model of the update path, for the frame claim

In Go, `old.Spec.Job` is a `*JobSpec`; `checkCancelRequested` clones `old`
with `DeepCopy` and then writes to the clone's job struct through the
clone's pointer.  To settle whether that write can reach the caller's
inputs, jobs are placed in an explicit heap: a `*JobSpec` is an index into
a list of `JobSpec` values, `DeepCopy` allocates a fresh cell at the end,
and the assignment updates the fresh cell in place. -/

abbrev JobStore := List JobSpec

/-- The spec with the job held by pointer (heap index); `none` is the nil
pointer. -/
structure FlinkClusterSpecRef where
  Image : ImageSpec
  JobManager : JobManagerSpec
  TaskManager : TaskManagerSpec
  Job : Option Nat
deriving DecidableEq, Repr

structure FlinkClusterRef where
  ObjectMeta : ObjectMeta
  Spec : FlinkClusterSpecRef
deriving DecidableEq, Repr

/-- Chasing a `*JobSpec` through the heap. -/
def derefJob (s : JobStore) (a : Option Nat) : Option JobSpec :=
  a.bind fun i => s[i]?

/-- The value `reflect.DeepEqual` observes for a spec: the job pointer is
chased, everything else is already a value. -/
def derefSpec (s : JobStore) (r : FlinkClusterSpecRef) : FlinkClusterSpec :=
  { Image := r.Image, JobManager := r.JobManager, TaskManager := r.TaskManager,
    Job := derefJob s r.Job }

/-- Embeds `checkCancelRequested` on the heap model.  In the stop-job branch,
`old.DeepCopy()` allocates a fresh cell holding a copy of old's job
struct, the assignment `oldCopy.Spec.Job.CancelRequested = ...` overwrites
that fresh cell, and the deep comparison chases pointers through the
resulting heap. -/
def checkCancelRequestedRef (s : JobStore) (old new : FlinkClusterRef) :
    JobStore × Except VError Bool :=
  match old.Spec.Job, new.Spec.Job with
  | some ao, some an =>
    match s[ao]?, s[an]? with
    | some oldJob, some newJob =>
      if isCancelTrue oldJob.CancelRequested
          ∧ ¬ isCancelTrue newJob.CancelRequested then
        (s, .error .irreversibleCancel)
      else if ¬ isCancelTrue oldJob.CancelRequested
          ∧ isCancelTrue newJob.CancelRequested then
        ((s ++ [oldJob]).set s.length
            { oldJob with CancelRequested := newJob.CancelRequested },
         .ok (decide
            (derefSpec
              ((s ++ [oldJob]).set s.length
                { oldJob with CancelRequested := newJob.CancelRequested })
              new.Spec =
             derefSpec
              ((s ++ [oldJob]).set s.length
                { oldJob with CancelRequested := newJob.CancelRequested })
              { old.Spec with Job := some s.length })))
      else (s, .ok false)
    | _, _ => (s, .ok false)
  | _, _ => (s, .ok false)

/-- Embeds `ValidateUpdate` on the heap model: the immutability comparison also
chases pointers through the heap returned by the transition check. -/
def ValidateUpdateRef (s : JobStore) (old new : FlinkClusterRef) :
    JobStore × VResult :=
  match checkCancelRequestedRef s old new with
  | (s1, .error e) => (s1, .err e)
  | (s1, .ok true) => (s1, .ok)
  | (s1, .ok false) =>
    if derefSpec s1 new.Spec = derefSpec s1 old.Spec then (s1, .ok)
    else (s1, .err .specImmutable)

/-- Writing at the index of the just-appended cell replaces that cell. -/
theorem set_length_append {α : Type} (s : List α) (a b : α) :
    (s ++ [a]).set s.length b = s ++ [b] := by
  induction s with
  | nil => rfl
  | cons x xs ih => simp [ih]

/-- The update's store component is that of the transition check. -/
theorem validateUpdateRef_store (s : JobStore) (old new : FlinkClusterRef) :
    (ValidateUpdateRef s old new).1 = (checkCancelRequestedRef s old new).1 := by
  unfold ValidateUpdateRef
  rcases h : checkCancelRequestedRef s old new with ⟨s1, r⟩
  rcases r with e | b
  · rfl
  · cases b
    · dsimp only
      split <;> rfl
    · rfl

/-- The transition check only ever allocates: the heap it returns is
either the input heap or the input heap with one cell appended. -/
theorem checkCancelRequestedRef_store (s : JobStore) (old new : FlinkClusterRef) :
    (checkCancelRequestedRef s old new).1 = s ∨
    ∃ b, (checkCancelRequestedRef s old new).1 = s ++ [b] := by
  unfold checkCancelRequestedRef
  split
  · split
    · split
      · exact Or.inl rfl
      · split
        · exact Or.inr ⟨_, by rw [set_length_append]⟩
        · exact Or.inl rfl
    · exact Or.inl rfl
  · exact Or.inl rfl

/-- A cluster whose job pointer is nil or points into the heap, as every
cluster handed to the validator by the Go runtime does. -/
def validRef (s : JobStore) (r : FlinkClusterRef) : Prop :=
  ∀ a, r.Spec.Job = some a → a < s.length

/-- C9: `ValidateUpdate` never mutates its inputs.  On the heap model,
the whole update path only allocates: every heap cell present before the
call holds the same job afterwards, and in particular both input specs
dereference to the same values as before, so the clone-and-compare step
wrote only to its local deep copy. -/
theorem C9_update_mutates_no_input :
    ∀ (s : JobStore) (old new : FlinkClusterRef),
      validRef s old → validRef s new →
      (∀ i, i < s.length → ((ValidateUpdateRef s old new).1)[i]? = s[i]?) ∧
      derefSpec (ValidateUpdateRef s old new).1 old.Spec = derefSpec s old.Spec ∧
      derefSpec (ValidateUpdateRef s old new).1 new.Spec = derefSpec s new.Spec := by
  intro s old new hvo hvn
  have hpres : ∀ i, i < s.length →
      ((checkCancelRequestedRef s old new).1)[i]? = s[i]? := by
    intro i hi
    rcases checkCancelRequestedRef_store s old new with h | ⟨b, h⟩
    · rw [h]
    · rw [h, List.getElem?_append_left hi]
  have hderef : ∀ r : FlinkClusterRef, validRef s r →
      derefSpec (checkCancelRequestedRef s old new).1 r.Spec = derefSpec s r.Spec := by
    intro r hv
    rcases hj : r.Spec.Job with - | a
    · simp [derefSpec, derefJob, hj]
    · simp [derefSpec, derefJob, hj, hpres a (hv a hj)]
  refine ⟨fun i hi => ?_, ?_, ?_⟩ <;> rw [validateUpdateRef_store]
  · exact hpres i hi
  · exact hderef old hvo
  · exact hderef new hvn

/-- The heap and clusters used to exercise the mutating branch: the old
cluster's job (cell 0) has no cancel request, the new cluster's job
(cell 1) has one, so the stop-job clone-and-write branch runs. -/
def storeEx : JobStore := [jobGood, { jobGood with CancelRequested := some true }]

def refSpecEx : FlinkClusterSpecRef :=
  { Image := imageGood, JobManager := jmNoMin, TaskManager := tmGood, Job := some 0 }

def refOld : FlinkClusterRef := { ObjectMeta := metaGood, Spec := refSpecEx }

def refNew : FlinkClusterRef :=
  { ObjectMeta := metaGood, Spec := { refSpecEx with Job := some 1 } }

/-- C9 witness: on the concrete heap that takes the clone-and-write
branch, cell 0 is unchanged and the old input dereferences unchanged. -/
theorem C9_witness :
    ((ValidateUpdateRef storeEx refOld refNew).1)[0]? = storeEx[0]? ∧
    derefSpec (ValidateUpdateRef storeEx refOld refNew).1 refOld.Spec
      = derefSpec storeEx refOld.Spec :=
  ⟨(C9_update_mutates_no_input storeEx refOld refNew
      (fun a ha => by injection ha with h; rw [← h]; decide)
      (fun a ha => by injection ha with h; rw [← h]; decide)).1 0 (by decide),
   (C9_update_mutates_no_input storeEx refOld refNew
      (fun a ha => by injection ha with h; rw [← h]; decide)
      (fun a ha => by injection ha with h; rw [← h]; decide)).2.1⟩

/-- C10: the update path performs no field-level validation: any pair with
deep-equal specs is accepted, even a pair both of whose members
`ValidateCreate` rejects (empty image name, reserved port). -/
theorem C10_update_skips_field_validation :
    (∀ old new : FlinkCluster, new.Spec = old.Spec → ValidateUpdate old new = .ok) ∧
    (ValidateCreate badCluster = .err .imageNameUnspecified ∧
     ValidateUpdate badCluster badCluster = .ok) :=
  ⟨update_ok_of_spec_eq, by decide, by decide⟩

/-- C10 witness: the create-rejected cluster updated to itself is
accepted. -/
theorem C10_witness : ValidateUpdate badCluster badCluster = .ok :=
  C10_update_skips_field_validation.1 badCluster badCluster rfl

end FlinkValidate
